import Mathlib

/-!
Verification of the rent-vs-buy cost projection program (`huasuan.py`).

The program is embedded shallowly over `ℚ`: every Python float expression is
translated to exact rational arithmetic, Python `int()` truncation toward zero
becomes `pyInt`, the module-level mutable lists become an explicit
`CostTables` state that functions thread, Python list indexing (which raises
`IndexError` out of range) becomes `List.get?`, and the division in the
amortization formula (which raises `ZeroDivisionError` on a zero denominator)
returns an `Option`.
-/

set_option allowUnsafeReducibility true
set_option maxRecDepth 40000
set_option exponentiation.threshold 1000
set_option linter.unusedVariables false

attribute [semireducible] Rat.mul Rat.add Rat.sub Rat.inv

/-- Python `int()` applied to a real value: truncation toward zero. -/
def pyInt (q : ℚ) : ℤ := if q < 0 then ⌈q⌉ else ⌊q⌋

/-- Constant `LIVING_MONTH = 60` from the source. -/
def LIVING_MONTH : ℕ := 60

/-- Constant `INFLATION_RATE = 0.025` from the source. -/
def INFLATION_RATE : ℚ := 25 / 1000

/-- Constant `INITIAL_MONTHLY_RENT = 3300` from the source. -/
def INITIAL_MONTHLY_RENT : ℚ := 3300

/-- Constant `TOTAL_HOUSE_PRICE = 900000` from the source. -/
def TOTAL_HOUSE_PRICE : ℚ := 900000

/-- Constant `ANNUAL_INTEREST_RATE = 0.035` from the source. -/
def ANNUAL_INTEREST_RATE : ℚ := 35 / 1000

/-- Constant `MORGAGE_TERMS = 360` from the source. -/
def MORGAGE_TERMS : ℕ := 360

/-- Constant `DOWNPAYMENT_PCT = 0.2` from the source. -/
def DOWNPAYMENT_PCT : ℚ := 2 / 10

/-- Constant `MONTHLY_HOA = 500` from the source. -/
def MONTHLY_HOA : ℚ := 500

/-- Constant `MONTHLY_INSURANCE = 60` from the source. -/
def MONTHLY_INSURANCE : ℚ := 60

/-- Constant `ANNUAL_PROPERTY_TAX_RATE = 0.0073` from the source. -/
def ANNUAL_PROPERTY_TAX_RATE : ℚ := 73 / 10000

/-- State of the four module-level mutable lists of the source
(`costOfMonth`, `principleOfMonth`, `interestOfMonth`, `propertyTaxOfMonth`). -/
structure CostTables where
  costOfMonth : List ℤ
  principleOfMonth : List ℤ
  interestOfMonth : List ℤ
  propertyTaxOfMonth : List ℤ
deriving DecidableEq

/-- The initial state: all four tables empty, as at module load. -/
def emptyTables : CostTables := ⟨[], [], [], []⟩

/-- Source `getMonthlyPaymentToBank`: the fixed monthly annuity payment
`morgage * (r * (1+r)^n) / ((1+r)^n - 1)` with `r = AnnualInterestRate/12`.
Python raises `ZeroDivisionError` when the denominator is zero, embedded as
`none`. -/
def getMonthlyPaymentToBank (total downpaymentPct : ℚ) (loanTermInMonth : ℕ)
    (annualInterestRate : ℚ) : Option ℚ :=
  let morgage := total * (1 - downpaymentPct)
  let r := annualInterestRate / 12
  if (1 + r) ^ loanTermInMonth - 1 = 0 then none
  else some (morgage * (r * (1 + r) ^ loanTermInMonth) / ((1 + r) ^ loanTermInMonth - 1))

/-- The list of values appended to `costOfMonth` by the loop of the source
`initCostOfRental`: each iteration appends `int(rent)` and then updates the
untruncated accumulator `rent = rent * (1 + inflationRate/12)`. -/
def initCostOfRental (termInMonth : ℕ) (inflationRate initialRent : ℚ) : List ℤ :=
  match termInMonth with
  | 0 => []
  | n + 1 =>
    pyInt initialRent ::
      initCostOfRental n inflationRate (initialRent * (1 + inflationRate / 12))

/-- The loop body of the source `initCostOfBank`, given the running `morgage`
balance and the fixed `monthlyPayment`: each iteration computes
`interest = morgage * rate / 12`, `principle = monthlyPayment - interest`,
updates `morgage -= principle`, and appends `int(interest)` and
`int(principle)` to the two tables (returned here as a pair of lists). -/
def bankRows (termInMonth : ℕ) (morgage rate monthlyPayment : ℚ) : List ℤ × List ℤ :=
  match termInMonth with
  | 0 => ([], [])
  | n + 1 =>
    let interestOfTheMonth := morgage * rate / 12
    let principleOfTheMonth := monthlyPayment - interestOfTheMonth
    let rest := bankRows n (morgage - principleOfTheMonth) rate monthlyPayment
    (pyInt interestOfTheMonth :: rest.1, pyInt principleOfTheMonth :: rest.2)

/-- Source `initCostOfBank`: computes the fixed monthly payment and builds the
interest and principle tables; `none` when the payment formula divides by
zero. -/
def initCostOfBank (termInMonth : ℕ) (total downpaymentPct : ℚ)
    (loanTermInMonth : ℕ) (annualInterestRate : ℚ) : Option (List ℤ × List ℤ) :=
  (getMonthlyPaymentToBank total downpaymentPct loanTermInMonth annualInterestRate).map
    fun monthlyPayment =>
      bankRows termInMonth (total * (1 - downpaymentPct)) annualInterestRate monthlyPayment

/-- The loop of the source `initPropertyTax`, with the fixed per-run `incRate`
already computed: each iteration appends `int(total * propertyTaxRate / 12)`
and then updates the untruncated assessed value
`total *= (1 + incRate / 12)`. -/
def propertyTaxRows (termInMonth : ℕ) (total propertyTaxRate incRate : ℚ) : List ℤ :=
  match termInMonth with
  | 0 => []
  | n + 1 =>
    pyInt (total * propertyTaxRate / 12) ::
      propertyTaxRows n (total * (1 + incRate / 12)) propertyTaxRate incRate

/-- Source `initPropertyTax`: `assessedValueIncRate = 0.02`,
`incRate = min(assessedValueIncRate, inflationRate)` computed once before the
loop. -/
def initPropertyTax (termInMonth : ℕ) (total propertyTaxRate inflationRate : ℚ) : List ℤ :=
  propertyTaxRows termInMonth total propertyTaxRate (min (2 / 100) inflationRate)

/-- Source `init`: runs the three builders at the module constants, appending
to the current tables (the source appends to the module-level lists and never
clears them). `none` when the amortization payment divides by zero. -/
def init (s : CostTables) : Option CostTables :=
  (initCostOfBank LIVING_MONTH TOTAL_HOUSE_PRICE DOWNPAYMENT_PCT MORGAGE_TERMS
      ANNUAL_INTEREST_RATE).map
    fun rows =>
      { costOfMonth := s.costOfMonth ++
          initCostOfRental LIVING_MONTH INFLATION_RATE INITIAL_MONTHLY_RENT
        interestOfMonth := s.interestOfMonth ++ rows.1
        principleOfMonth := s.principleOfMonth ++ rows.2
        propertyTaxOfMonth := s.propertyTaxOfMonth ++
          initPropertyTax LIVING_MONTH TOTAL_HOUSE_PRICE ANNUAL_PROPERTY_TAX_RATE
            INFLATION_RATE }

/-- Source `getRentalCostByMonth`: `costOfMonth[month]`; Python raises
`IndexError` out of range, embedded as `none`. -/
def getRentalCostByMonth (s : CostTables) (month : ℕ) : Option ℤ :=
  s.costOfMonth.get? month

/-- Source `getInterestCostByMonth`: `interestOfMonth[month]`. -/
def getInterestCostByMonth (s : CostTables) (month : ℕ) : Option ℤ :=
  s.interestOfMonth.get? month

/-- Source `getPrincipleCostByMonth`: `principleOfMonth[month]`. -/
def getPrincipleCostByMonth (s : CostTables) (month : ℕ) : Option ℤ :=
  s.principleOfMonth.get? month

/-- Source `getPropertyTaxByMonth`: `propertyTaxOfMonth[month]`. -/
def getPropertyTaxByMonth (s : CostTables) (month : ℕ) : Option ℤ :=
  s.propertyTaxOfMonth.get? month

/-- Source `getHOAByMonth`: `MONTHLY_HOA * (1 + INFLATION_RATE/12) ** month`,
an untruncated value. -/
def getHOAByMonth (month : ℕ) : ℚ :=
  MONTHLY_HOA * (1 + INFLATION_RATE / 12) ^ month

/-- Source `getInsuranceByMonth`:
`MONTHLY_INSURANCE * (1 + INFLATION_RATE/12) ** month`, an untruncated
value. -/
def getInsuranceByMonth (month : ℕ) : ℚ :=
  MONTHLY_INSURANCE * (1 + INFLATION_RATE / 12) ^ month

/-- Source `getTotalRentalCost`: sums `getRentalCostByMonth(month)` for
`month` in `range(termInMonth)`; an out-of-range read makes the whole run
fail, hence the `Option`. -/
def getTotalRentalCost (s : CostTables) (termInMonth : ℕ) : Option ℤ :=
  (List.range termInMonth).foldl
    (fun acc month => acc.bind fun c =>
      (getRentalCostByMonth s month).map fun rental => c + rental)
    (some 0)

/-- Source `getTotalHousingCost`: for each month reads the three stored
integer tables, computes the untruncated `hoa` and `insurance`, forms
`total = interest + principle + tax + hoa + insurance`, and accumulates
`totalCost += total` and `pureCost += total - principle`. Returns
`(totalCost, pureCost)`. -/
def getTotalHousingCost (s : CostTables) (termInMonth : ℕ) : Option (ℚ × ℚ) :=
  (List.range termInMonth).foldl
    (fun acc month => acc.bind fun tp =>
      (getInterestCostByMonth s month).bind fun interest =>
      (getPrincipleCostByMonth s month).bind fun principle =>
      (getPropertyTaxByMonth s month).map fun tax =>
        let hoa := getHOAByMonth month
        let insurance := getInsuranceByMonth month
        let total := (interest : ℚ) + (principle : ℚ) + (tax : ℚ) + hoa + insurance
        (tp.1 + total, tp.2 + (total - (principle : ℚ))))
    (some (0, 0))

/-- Source `main`: `init()`, then the two aggregations over `LIVING_MONTH`
months; returns the three summary values printed at the end
(total rental cost, total housing cost plus the one-time downpayment, pure
housing cost). Named `main` in the source; renamed because Lean reserves
`main`. -/
def mainResult : Option (ℤ × ℚ × ℚ) :=
  (init emptyTables).bind fun s =>
    (getTotalRentalCost s LIVING_MONTH).bind fun totalRentalCost =>
      (getTotalHousingCost s LIVING_MONTH).map fun tc =>
        (totalRentalCost, tc.1 + TOTAL_HOUSE_PRICE * DOWNPAYMENT_PCT, tc.2)

/-- Running balance of the source `initCostOfBank` loop: `morgageSeq rate P m i`
is the value of the `morgage` variable after `i` iterations, starting from
`m`, with fixed monthly payment `P`. -/
def morgageSeq (rate monthlyPayment m : ℚ) : ℕ → ℚ
  | 0 => m
  | i + 1 =>
    morgageSeq rate monthlyPayment (m - (monthlyPayment - m * rate / 12)) i

/-- Variant of `getTotalHousingCost` written from the spec sentence that HOA
and insurance are truncated to integers before inclusion in the per-month
total; used to compare the spec's words with the code. -/
def getTotalHousingCostTruncSpec (s : CostTables) (termInMonth : ℕ) : Option (ℚ × ℚ) :=
  (List.range termInMonth).foldl
    (fun acc month => acc.bind fun tp =>
      (getInterestCostByMonth s month).bind fun interest =>
      (getPrincipleCostByMonth s month).bind fun principle =>
      (getPropertyTaxByMonth s month).map fun tax =>
        let hoa : ℤ := pyInt (getHOAByMonth month)
        let insurance : ℤ := pyInt (getInsuranceByMonth month)
        let total := (interest : ℚ) + (principle : ℚ) + (tax : ℚ) + (hoa : ℚ) + (insurance : ℚ)
        (tp.1 + total, tp.2 + (total - (principle : ℚ))))
    (some (0, 0))

/-- The fixed monthly payment under the module constants (defined under the
default parameters the division succeeds, proved where used). -/
def defaultPayment : ℚ :=
  (getMonthlyPaymentToBank TOTAL_HOUSE_PRICE DOWNPAYMENT_PCT MORGAGE_TERMS
    ANNUAL_INTEREST_RATE).getD 0

/-- The running `morgage` balance of `initCostOfBank` under the module
constants, after a given number of iterations. -/
def defaultMorgage (i : ℕ) : ℚ :=
  morgageSeq ANNUAL_INTEREST_RATE defaultPayment
    (TOTAL_HOUSE_PRICE * (1 - DOWNPAYMENT_PCT)) i

/-- The untruncated per-month housing total formed inside
`getTotalHousingCost`: stored `interest + principle + tax` plus the
untruncated `hoa` and `insurance` for that month. -/
def housingMonthTotal (s : CostTables) (month : ℕ) : ℚ :=
  ((s.interestOfMonth.getD month 0 : ℤ) : ℚ)
    + ((s.principleOfMonth.getD month 0 : ℤ) : ℚ)
    + ((s.propertyTaxOfMonth.getD month 0 : ℤ) : ℚ)
    + getHOAByMonth month + getInsuranceByMonth month

/-- Helper for the rental series: entry `i` of the built list is the
truncation of the untruncated accumulator `initialRent * (1+infl/12)^i`. -/
theorem initCostOfRental_get? (termInMonth : ℕ) :
    ∀ (i : ℕ) (inflationRate initialRent : ℚ), i < termInMonth →
      (initCostOfRental termInMonth inflationRate initialRent).get? i
        = some (pyInt (initialRent * (1 + inflationRate / 12) ^ i)) := by
  induction termInMonth with
  | zero => intro i _ _ hi; omega
  | succ n ih =>
    intro i infl rent hi
    match i with
    | 0 => simp [initCostOfRental]
    | j + 1 =>
      have hj : j < n := by omega
      simp only [initCostOfRental, List.get?_cons_succ]
      rw [ih j infl (rent * (1 + infl / 12)) hj]
      congr 1
      ring_nf

/-- Helper: the rental series has exactly `termInMonth` entries. -/
theorem initCostOfRental_length (termInMonth : ℕ) :
    ∀ (inflationRate initialRent : ℚ),
      (initCostOfRental termInMonth inflationRate initialRent).length = termInMonth := by
  induction termInMonth with
  | zero => intro _ _; rfl
  | succ n ih => intro infl rent; simp [initCostOfRental, ih]

/-- C1: for every `termInMonth > 0`, `inflationRate ≥ 0` and `initialRent`,
the rental series has entry `0` equal to the truncation of `initialRent`, and
entry `i+1` equal to the truncation of the untruncated carried-forward rent
`initialRent * (1 + inflationRate/12)^(i+1)`; truncation is applied only to
the recorded value, never to the carried-forward accumulator. (Amended from
the claim: the recording uses Python `int()`, truncation toward zero, which
agrees with `floor` only on nonnegative values.) -/
theorem C1_rental_series (termInMonth : ℕ) (inflationRate initialRent : ℚ)
    (ht : 0 < termInMonth) (hinfl : 0 ≤ inflationRate) :
    (initCostOfRental termInMonth inflationRate initialRent).get? 0
        = some (pyInt initialRent) ∧
      ∀ i : ℕ, i + 1 < termInMonth →
        (initCostOfRental termInMonth inflationRate initialRent).get? (i + 1)
          = some (pyInt (initialRent * (1 + inflationRate / 12) ^ (i + 1))) := by
  constructor
  · have h := initCostOfRental_get? termInMonth 0 inflationRate initialRent ht
    simpa using h
  · intro i hi
    exact initCostOfRental_get? termInMonth (i + 1) inflationRate initialRent hi

/-- C1 witness: the amended theorem applied at `termInMonth = 2`,
`inflationRate = 1/4`, `initialRent = 1200`. -/
theorem C1_rental_series_witness :
    (initCostOfRental 2 (1/4) 1200).get? 0 = some (pyInt 1200) ∧
      ∀ i : ℕ, i + 1 < 2 →
        (initCostOfRental 2 (1/4) 1200).get? (i + 1)
          = some (pyInt (1200 * (1 + (1/4) / 12) ^ (i + 1))) :=
  C1_rental_series 2 (1/4) 1200 (by decide) (by decide)

/-- C1 counterexample: the claim records entry `0` as `floor(initialRent)`,
but Python `int()` truncates toward zero, and the two differ at the negative
input `initialRent = -1/2`: the series records `0` while `floor(-1/2) = -1`. -/
theorem C1_floor_counterexample :
    (initCostOfRental 1 0 (-(1/2))).get? 0 ≠ some ⌊(-(1/2) : ℚ)⌋ := by decide

/-- Helper: `pyInt` is monotone. -/
theorem pyInt_mono {x y : ℚ} (h : x ≤ y) : pyInt x ≤ pyInt y := by
  unfold pyInt
  split <;> split
  · exact Int.ceil_le_ceil h
  · rename_i hx hy
    have h1 : (⌈x⌉ : ℤ) ≤ ⌈(0:ℚ)⌉ := Int.ceil_le_ceil (le_of_lt hx)
    have h2 : (⌊(0:ℚ)⌋ : ℤ) ≤ ⌊y⌋ := Int.floor_le_floor (not_lt.mp hy)
    simpa using le_trans (by simpa using h1) (by simpa using h2)
  · rename_i hx hy
    exact absurd (lt_of_le_of_lt h hy) (fun hlt => hx hlt)
  · exact Int.floor_le_floor h

/-- Helper: truncation toward zero moves a value by strictly less than one. -/
theorem abs_pyInt_sub_lt_one (q : ℚ) : |(pyInt q : ℚ) - q| < 1 := by
  unfold pyInt
  rw [abs_sub_lt_iff]
  split
  · constructor
    · have := Int.ceil_lt_add_one q
      linarith
    · have := Int.le_ceil q
      linarith
  · constructor
    · have := Int.floor_le q
      linarith
    · have := Int.sub_one_lt_floor q
      linarith

/-- Helper: the interest table built by the bank loop records, at index `i`,
the truncation of `morgageSeq rate P m i * rate / 12`. -/
theorem bankRows_fst_get? (termInMonth : ℕ) :
    ∀ (i : ℕ) (m rate monthlyPayment : ℚ), i < termInMonth →
      (bankRows termInMonth m rate monthlyPayment).1.get? i
        = some (pyInt (morgageSeq rate monthlyPayment m i * rate / 12)) := by
  induction termInMonth with
  | zero => intro i _ _ _ hi; omega
  | succ n ih =>
    intro i m rate P hi
    match i with
    | 0 => simp [bankRows, morgageSeq]
    | j + 1 =>
      have hj : j < n := by omega
      simp only [bankRows, List.get?_cons_succ]
      exact ih j (m - (P - m * rate / 12)) rate P hj

/-- Helper: the principle table built by the bank loop records, at index `i`,
the truncation of `monthlyPayment - morgageSeq rate P m i * rate / 12`. -/
theorem bankRows_snd_get? (termInMonth : ℕ) :
    ∀ (i : ℕ) (m rate monthlyPayment : ℚ), i < termInMonth →
      (bankRows termInMonth m rate monthlyPayment).2.get? i
        = some (pyInt (monthlyPayment - morgageSeq rate monthlyPayment m i * rate / 12)) := by
  induction termInMonth with
  | zero => intro i _ _ _ hi; omega
  | succ n ih =>
    intro i m rate P hi
    match i with
    | 0 => simp [bankRows, morgageSeq]
    | j + 1 =>
      have hj : j < n := by omega
      simp only [bankRows, List.get?_cons_succ]
      exact ih j (m - (P - m * rate / 12)) rate P hj

/-- Helper: both bank tables have exactly `termInMonth` entries. -/
theorem bankRows_length (termInMonth : ℕ) :
    ∀ (m rate monthlyPayment : ℚ),
      (bankRows termInMonth m rate monthlyPayment).1.length = termInMonth ∧
        (bankRows termInMonth m rate monthlyPayment).2.length = termInMonth := by
  induction termInMonth with
  | zero => intro _ _ _; exact ⟨rfl, rfl⟩
  | succ n ih =>
    intro m rate P
    have h := ih (m - (P - m * rate / 12)) rate P
    simp [bankRows, h.1, h.2]

/-- Helper: with a positive interest rate and a positive loan term, the
annuity denominator is nonzero and the payment formula succeeds. -/
theorem getMonthlyPaymentToBank_eq_some (total downpaymentPct : ℚ)
    (loanTermInMonth : ℕ) (rate : ℚ) (hrate : 0 < rate) (hloan : 0 < loanTermInMonth) :
    getMonthlyPaymentToBank total downpaymentPct loanTermInMonth rate
      = some (total * (1 - downpaymentPct) * (rate / 12 * (1 + rate / 12) ^ loanTermInMonth)
          / ((1 + rate / 12) ^ loanTermInMonth - 1)) := by
  have hr : (0:ℚ) < rate / 12 := by positivity
  have hX : (1:ℚ) < (1 + rate / 12) ^ loanTermInMonth :=
    one_lt_pow (by linarith) (by omega)
  have hne : (1 + rate / 12) ^ loanTermInMonth - 1 ≠ 0 := by linarith
  unfold getMonthlyPaymentToBank
  simp only [hne, if_false]

/-- Helper: the annuity payment is at least the first month's interest
`m0 * rate / 12` when the initial loan balance `m0` is nonnegative. -/
theorem payment_ge_first_interest (total downpaymentPct : ℚ) (loanTermInMonth : ℕ)
    (rate : ℚ) (hrate : 0 < rate) (hloan : 0 < loanTermInMonth)
    (hpos : 0 ≤ total * (1 - downpaymentPct)) :
    total * (1 - downpaymentPct) * rate / 12
      ≤ total * (1 - downpaymentPct) * (rate / 12 * (1 + rate / 12) ^ loanTermInMonth)
          / ((1 + rate / 12) ^ loanTermInMonth - 1) := by
  set m0 := total * (1 - downpaymentPct) with hm0
  set X := (1 + rate / 12) ^ loanTermInMonth with hX
  have hr : (0:ℚ) < rate / 12 := by positivity
  have hX1 : (1:ℚ) < X :=
    one_lt_pow (by linarith) (by omega)
  have hXpos : (0:ℚ) < X - 1 := by linarith
  rw [le_div_iff hXpos]
  have hnn : 0 ≤ m0 * rate := by
    have := mul_nonneg hpos (le_of_lt hrate)
    linarith
  nlinarith [hnn, hX1]

/-- Helper: one unfolding of the balance recurrence from the far end. -/
theorem morgageSeq_succ (rate monthlyPayment : ℚ) :
    ∀ (i : ℕ) (m : ℚ),
      morgageSeq rate monthlyPayment m (i + 1)
        = morgageSeq rate monthlyPayment m i
            - (monthlyPayment - morgageSeq rate monthlyPayment m i * rate / 12) := by
  intro i
  induction i with
  | zero => intro m; simp [morgageSeq]
  | succ j ih =>
    intro m
    have h := ih (m - (monthlyPayment - m * rate / 12))
    simpa [morgageSeq] using h

/-- Helper: if the payment covers the first month's interest and the rate is
nonnegative, the balance is non-increasing and every month's interest stays
at most the payment. -/
theorem morgageSeq_invariant (rate monthlyPayment m : ℚ) (hr : 0 ≤ rate)
    (h0 : m * rate / 12 ≤ monthlyPayment) :
    ∀ i : ℕ,
      morgageSeq rate monthlyPayment m i * rate / 12 ≤ monthlyPayment ∧
        morgageSeq rate monthlyPayment m (i + 1) ≤ morgageSeq rate monthlyPayment m i := by
  intro i
  induction i with
  | zero =>
    refine ⟨by simpa [morgageSeq] using h0, ?_⟩
    rw [morgageSeq_succ]
    simp only [morgageSeq]
    linarith
  | succ j ih =>
    obtain ⟨hint, hdec⟩ := ih
    have hint' : morgageSeq rate monthlyPayment m (j + 1) * rate / 12 ≤ monthlyPayment := by
      have hmul : morgageSeq rate monthlyPayment m (j + 1) * rate
          ≤ morgageSeq rate monthlyPayment m j * rate :=
        mul_le_mul_of_nonneg_right hdec hr
      have : morgageSeq rate monthlyPayment m (j + 1) * rate / 12
          ≤ morgageSeq rate monthlyPayment m j * rate / 12 := by linarith
      linarith
    refine ⟨hint', ?_⟩
    rw [morgageSeq_succ]
    linarith

/-- Helper: the balance is antitone over months under the same hypotheses. -/
theorem morgageSeq_anti (rate monthlyPayment m : ℚ) (hr : 0 ≤ rate)
    (h0 : m * rate / 12 ≤ monthlyPayment) {i j : ℕ} (hij : i ≤ j) :
    morgageSeq rate monthlyPayment m j ≤ morgageSeq rate monthlyPayment m i := by
  induction j with
  | zero =>
    have : i = 0 := Nat.le_zero.mp hij
    simp [this]
  | succ k ih =>
    rcases Nat.lt_or_ge i (k + 1) with hlt | hge
    · have hik : i ≤ k := by omega
      have h1 := (morgageSeq_invariant rate monthlyPayment m hr h0 k).2
      exact le_trans h1 (ih hik)
    · have : i = k + 1 := by omega
      simp [this]

/-- Helper: entry `i` of the property tax loop is the truncation of
`assessedValue_i * propertyTaxRate / 12` with
`assessedValue_i = total * (1 + incRate/12)^i`. -/
theorem propertyTaxRows_get? (termInMonth : ℕ) :
    ∀ (i : ℕ) (total propertyTaxRate incRate : ℚ), i < termInMonth →
      (propertyTaxRows termInMonth total propertyTaxRate incRate).get? i
        = some (pyInt (total * (1 + incRate / 12) ^ i * propertyTaxRate / 12)) := by
  induction termInMonth with
  | zero => intro i _ _ _ hi; omega
  | succ n ih =>
    intro i total taxRate incRate hi
    match i with
    | 0 => simp [propertyTaxRows]
    | j + 1 =>
      have hj : j < n := by omega
      simp only [propertyTaxRows, List.get?_cons_succ]
      rw [ih j (total * (1 + incRate / 12)) taxRate incRate hj]
      congr 1
      ring_nf

/-- Helper: the property tax series has exactly `termInMonth` entries. -/
theorem propertyTaxRows_length (termInMonth : ℕ) :
    ∀ (total propertyTaxRate incRate : ℚ),
      (propertyTaxRows termInMonth total propertyTaxRate incRate).length = termInMonth := by
  induction termInMonth with
  | zero => intro _ _ _; rfl
  | succ n ih => intro total taxRate incRate; simp [propertyTaxRows, ih]

/-- C2 counterexample: at `termInMonth = 1`, `total = 18/5`,
`downpaymentPct = 0`, `loanTermInMonth = 1`, `annualInterestRate = 12` the
monthly payment is `36/5` while the recorded truncated interest and principle
are both `3`, so the recorded sum differs from the payment by `6/5`, more
than one truncation unit. -/
theorem C2_one_unit_counterexample :
    getMonthlyPaymentToBank (18/5) 0 1 12 = some (36/5) ∧
      initCostOfBank 1 (18/5) 0 1 12 = some ([3], [3]) ∧
      1 < |((3 + 3 : ℤ) : ℚ) - 36/5| := by decide

/-- C2 (amended): with `annualInterestRate > 0` and a positive loan term, for
every month `i < termInMonth` the pre-truncation interest
`morgageSeq ... i * rate / 12` and pre-truncation principle sum to the
monthly payment exactly, the recorded entries are their truncations, and the
recorded truncated sum is within two truncation units (strictly less than 2)
of the payment — not within one unit as the claim states. -/
theorem C2_interest_principle_split (termInMonth : ℕ) (total downpaymentPct : ℚ)
    (loanTermInMonth : ℕ) (rate : ℚ) (hrate : 0 < rate) (hloan : 0 < loanTermInMonth) :
    ∃ (monthlyPayment : ℚ) (rows : List ℤ × List ℤ),
      getMonthlyPaymentToBank total downpaymentPct loanTermInMonth rate
          = some monthlyPayment ∧
        initCostOfBank termInMonth total downpaymentPct loanTermInMonth rate = some rows ∧
        ∀ i : ℕ, i < termInMonth →
          morgageSeq rate monthlyPayment (total * (1 - downpaymentPct)) i * rate / 12
              + (monthlyPayment
                  - morgageSeq rate monthlyPayment (total * (1 - downpaymentPct)) i * rate / 12)
            = monthlyPayment ∧
          rows.1.get? i
            = some (pyInt
                (morgageSeq rate monthlyPayment (total * (1 - downpaymentPct)) i * rate / 12)) ∧
          rows.2.get? i
            = some (pyInt (monthlyPayment
                - morgageSeq rate monthlyPayment (total * (1 - downpaymentPct)) i * rate / 12)) ∧
          |((pyInt (morgageSeq rate monthlyPayment (total * (1 - downpaymentPct)) i * rate / 12)
              + pyInt (monthlyPayment
                  - morgageSeq rate monthlyPayment (total * (1 - downpaymentPct)) i
                      * rate / 12) : ℤ) : ℚ)
              - monthlyPayment| < 2 := by
  have hpay := getMonthlyPaymentToBank_eq_some total downpaymentPct loanTermInMonth rate
    hrate hloan
  set P := total * (1 - downpaymentPct)
      * (rate / 12 * (1 + rate / 12) ^ loanTermInMonth)
      / ((1 + rate / 12) ^ loanTermInMonth - 1) with hP
  refine ⟨P, bankRows termInMonth (total * (1 - downpaymentPct)) rate P, hpay, ?_, ?_⟩
  · unfold initCostOfBank
    rw [hpay]
    rfl
  · intro i hi
    set a := morgageSeq rate P (total * (1 - downpaymentPct)) i * rate / 12 with ha
    refine ⟨by ring, bankRows_fst_get? termInMonth i _ rate P hi,
      bankRows_snd_get? termInMonth i _ rate P hi, ?_⟩
    have h1 := abs_pyInt_sub_lt_one a
    have h2 := abs_pyInt_sub_lt_one (P - a)
    have : ((pyInt a + pyInt (P - a) : ℤ) : ℚ) - P
        = ((pyInt a : ℚ) - a) + ((pyInt (P - a) : ℚ) - (P - a)) := by
      push_cast
      ring
    rw [this]
    calc |((pyInt a : ℚ) - a) + ((pyInt (P - a) : ℚ) - (P - a))|
        ≤ |(pyInt a : ℚ) - a| + |(pyInt (P - a) : ℚ) - (P - a)| := abs_add _ _
      _ < 1 + 1 := by linarith
      _ = 2 := by norm_num

/-- C2 witness: the amended theorem applied at `termInMonth = 1`,
`total = 18/5`, `downpaymentPct = 0`, `loanTermInMonth = 1`,
`annualInterestRate = 12`. -/
theorem C2_interest_principle_split_witness :
    ∃ (monthlyPayment : ℚ) (rows : List ℤ × List ℤ),
      getMonthlyPaymentToBank (18/5) 0 1 12 = some monthlyPayment ∧
        initCostOfBank 1 (18/5) 0 1 12 = some rows ∧
        ∀ i : ℕ, i < 1 →
          morgageSeq 12 monthlyPayment ((18:ℚ)/5 * (1 - 0)) i * 12 / 12
              + (monthlyPayment - morgageSeq 12 monthlyPayment ((18:ℚ)/5 * (1 - 0)) i * 12 / 12)
            = monthlyPayment ∧
          rows.1.get? i
            = some (pyInt (morgageSeq 12 monthlyPayment ((18:ℚ)/5 * (1 - 0)) i * 12 / 12)) ∧
          rows.2.get? i
            = some (pyInt (monthlyPayment
                - morgageSeq 12 monthlyPayment ((18:ℚ)/5 * (1 - 0)) i * 12 / 12)) ∧
          |((pyInt (morgageSeq 12 monthlyPayment ((18:ℚ)/5 * (1 - 0)) i * 12 / 12)
              + pyInt (monthlyPayment
                  - morgageSeq 12 monthlyPayment ((18:ℚ)/5 * (1 - 0)) i * 12 / 12) : ℤ) : ℚ)
              - monthlyPayment| < 2 :=
  C2_interest_principle_split 1 (18/5) 0 1 12 (by norm_num) (by norm_num)

/-- C3: for every `termInMonth > 0`, `totalPrice`, `propertyTaxRate ≥ 0` and
`inflationRate ≥ 0`, the property tax series records in month `i` the
truncation of `assessedValue_i * propertyTaxRate / 12`, where
`assessedValue_i = totalPrice * (1 + min(0.02, inflationRate)/12)^i` grows
from `totalPrice` by the fixed per-run rate `min(0.02, inflationRate)`
computed once before the loop. -/
theorem C3_property_tax_series (termInMonth : ℕ)
    (total propertyTaxRate inflationRate : ℚ) (ht : 0 < termInMonth)
    (htax : 0 ≤ propertyTaxRate) (hinfl : 0 ≤ inflationRate) :
    ∀ i : ℕ, i < termInMonth →
      (initPropertyTax termInMonth total propertyTaxRate inflationRate).get? i
        = some (pyInt
            (total * (1 + min (2/100) inflationRate / 12) ^ i * propertyTaxRate / 12)) := by
  intro i hi
  unfold initPropertyTax
  exact propertyTaxRows_get? termInMonth i total propertyTaxRate
    (min (2/100) inflationRate) hi

/-- C3 witness: the theorem applied at `termInMonth = 2`, `total = 2400`,
`propertyTaxRate = 1/2`, `inflationRate = 0`. -/
theorem C3_property_tax_series_witness :
    (initPropertyTax 2 2400 (1/2) 0).get? 1
      = some (pyInt ((2400 : ℚ) * (1 + min (2/100) 0 / 12) ^ 1 * (1/2) / 12)) :=
  C3_property_tax_series 2 2400 (1/2) 0 (by norm_num) (by norm_num) (by norm_num) 1
    (by norm_num)

/-- C4: at `annualInterestRate = 0` the annuity denominator
`(1 + 0/12)^loanTermMonths - 1` is exactly zero, so the source raises
`ZeroDivisionError` (embedded: `none`) instead of falling back to
`principal0 / loanTermMonths` with all-zero interest as the claim requires;
shown here at the default remaining parameters. -/
theorem C4_zero_rate_division :
    getMonthlyPaymentToBank TOTAL_HOUSE_PRICE DOWNPAYMENT_PCT MORGAGE_TERMS 0 = none ∧
      initCostOfBank LIVING_MONTH TOTAL_HOUSE_PRICE DOWNPAYMENT_PCT MORGAGE_TERMS 0
        = none := by decide

/-- C7: under the default parameters (house price 900000, 20% downpayment,
3.5% annual interest, 360-month loan, 60 modeled months) the running
remaining-mortgage balance maintained by `initCostOfBank` — the payment is
defined, the balance is monotonically non-increasing from month to month, and
it never becomes negative within the 60-month term. -/
theorem C7_default_balance_monotone :
    (getMonthlyPaymentToBank TOTAL_HOUSE_PRICE DOWNPAYMENT_PCT MORGAGE_TERMS
        ANNUAL_INTEREST_RATE).isSome = true ∧
      ((List.range 60).all fun i =>
        decide (defaultMorgage (i + 1) ≤ defaultMorgage i)) = true ∧
      ((List.range 61).all fun i => decide (0 ≤ defaultMorgage i)) = true := by
  decide

/-- C8: with `annualInterestRate > 0`, a positive loan term and a nonnegative
initial balance (implied by the claim's positive-balance hypothesis), the
recorded amortization series is monotone: the interest entries are
non-increasing and the principle entries are non-decreasing. -/
theorem C8_amortization_monotone (termInMonth : ℕ) (total downpaymentPct : ℚ)
    (loanTermInMonth : ℕ) (rate : ℚ) (hrate : 0 < rate) (hloan : 0 < loanTermInMonth)
    (hpos : 0 ≤ total * (1 - downpaymentPct)) :
    ∃ rows : List ℤ × List ℤ,
      initCostOfBank termInMonth total downpaymentPct loanTermInMonth rate = some rows ∧
        (∀ (i j : ℕ) (a b : ℤ), i ≤ j →
          rows.1.get? i = some a → rows.1.get? j = some b → b ≤ a) ∧
        (∀ (i j : ℕ) (a b : ℤ), i ≤ j →
          rows.2.get? i = some a → rows.2.get? j = some b → a ≤ b) := by
  have hpay := getMonthlyPaymentToBank_eq_some total downpaymentPct loanTermInMonth rate
    hrate hloan
  set P := total * (1 - downpaymentPct)
      * (rate / 12 * (1 + rate / 12) ^ loanTermInMonth)
      / ((1 + rate / 12) ^ loanTermInMonth - 1) with hP
  set m0 := total * (1 - downpaymentPct) with hm0
  have h0 : m0 * rate / 12 ≤ P :=
    payment_ge_first_interest total downpaymentPct loanTermInMonth rate hrate hloan hpos
  have hr : (0:ℚ) ≤ rate := le_of_lt hrate
  refine ⟨bankRows termInMonth m0 rate P, ?_, ?_, ?_⟩
  · unfold initCostOfBank
    rw [hpay]
    rfl
  · intro i j a b hij hi hj
    have hiT : i < termInMonth := by
      obtain ⟨hl, -⟩ := List.get?_eq_some.mp hi
      rwa [(bankRows_length termInMonth m0 rate P).1] at hl
    have hjT : j < termInMonth := by
      obtain ⟨hl, -⟩ := List.get?_eq_some.mp hj
      rwa [(bankRows_length termInMonth m0 rate P).1] at hl
    rw [bankRows_fst_get? termInMonth i m0 rate P hiT] at hi
    rw [bankRows_fst_get? termInMonth j m0 rate P hjT] at hj
    have ha := Option.some.inj hi
    have hb := Option.some.inj hj
    subst ha
    subst hb
    have hM : morgageSeq rate P m0 j ≤ morgageSeq rate P m0 i :=
      morgageSeq_anti rate P m0 hr h0 hij
    apply pyInt_mono
    have := mul_le_mul_of_nonneg_right hM hr
    linarith
  · intro i j a b hij hi hj
    have hiT : i < termInMonth := by
      obtain ⟨hl, -⟩ := List.get?_eq_some.mp hi
      rwa [(bankRows_length termInMonth m0 rate P).2] at hl
    have hjT : j < termInMonth := by
      obtain ⟨hl, -⟩ := List.get?_eq_some.mp hj
      rwa [(bankRows_length termInMonth m0 rate P).2] at hl
    rw [bankRows_snd_get? termInMonth i m0 rate P hiT] at hi
    rw [bankRows_snd_get? termInMonth j m0 rate P hjT] at hj
    have ha := Option.some.inj hi
    have hb := Option.some.inj hj
    subst ha
    subst hb
    have hM : morgageSeq rate P m0 j ≤ morgageSeq rate P m0 i :=
      morgageSeq_anti rate P m0 hr h0 hij
    apply pyInt_mono
    have := mul_le_mul_of_nonneg_right hM hr
    linarith

/-- C8 witness: the theorem applied at `termInMonth = 3`, `total = 18/5`,
`downpaymentPct = 0`, `loanTermInMonth = 1`, `annualInterestRate = 12`. -/
theorem C8_amortization_monotone_witness :
    ∃ rows : List ℤ × List ℤ,
      initCostOfBank 3 (18/5) 0 1 12 = some rows ∧
        (∀ (i j : ℕ) (a b : ℤ), i ≤ j →
          rows.1.get? i = some a → rows.1.get? j = some b → b ≤ a) ∧
        (∀ (i j : ℕ) (a b : ℤ), i ≤ j →
          rows.2.get? i = some a → rows.2.get? j = some b → a ≤ b) :=
  C8_amortization_monotone 3 (18/5) 0 1 12 (by norm_num) (by norm_num) (by norm_num)

/-- Helper: an in-range index reads as `some` of the `getD` value. -/
theorem getD_some_of_lt {α : Type} (l : List α) (d : α) {n : ℕ} (h : n < l.length) :
    l.get? n = some (l.getD n d) := by
  cases hx : l.get? n with
  | none =>
    rw [List.get?_eq_none] at hx
    omega
  | some a =>
    rw [List.getD_eq_get?, hx]
    rfl

/-- Helper: the rental aggregation is the plain sum of the stored entries when
all reads are in range. -/
theorem getTotalRentalCost_eq_sum (s : CostTables) (termInMonth : ℕ)
    (h : termInMonth ≤ s.costOfMonth.length) :
    getTotalRentalCost s termInMonth
      = some (∑ m ∈ Finset.range termInMonth, s.costOfMonth.getD m 0) := by
  induction termInMonth with
  | zero => simp [getTotalRentalCost]
  | succ t ih =>
    have ih' := ih (by omega)
    unfold getTotalRentalCost at ih' ⊢
    rw [List.range_succ, List.foldl_append, ih']
    simp only [List.foldl_cons, List.foldl_nil, Option.some_bind]
    rw [getRentalCostByMonth, getD_some_of_lt s.costOfMonth 0 (by omega : t < _)]
    simp [Finset.sum_range_succ]

/-- Helper: the housing aggregation returns, when all reads are in range, the
pair of the sum of the untruncated per-month totals and the same sum with
each month's principle removed. -/
theorem getTotalHousingCost_eq_sum (s : CostTables) (termInMonth : ℕ)
    (hI : termInMonth ≤ s.interestOfMonth.length)
    (hP : termInMonth ≤ s.principleOfMonth.length)
    (hT : termInMonth ≤ s.propertyTaxOfMonth.length) :
    getTotalHousingCost s termInMonth
      = some (∑ m ∈ Finset.range termInMonth, housingMonthTotal s m,
          ∑ m ∈ Finset.range termInMonth,
            (housingMonthTotal s m - ((s.principleOfMonth.getD m 0 : ℤ) : ℚ))) := by
  induction termInMonth with
  | zero => simp [getTotalHousingCost]
  | succ t ih =>
    have ih' := ih (by omega) (by omega) (by omega)
    unfold getTotalHousingCost at ih' ⊢
    rw [List.range_succ, List.foldl_append, ih']
    simp only [List.foldl_cons, List.foldl_nil, Option.some_bind]
    rw [getInterestCostByMonth, getD_some_of_lt s.interestOfMonth 0 (by omega : t < _)]
    rw [getPrincipleCostByMonth, getD_some_of_lt s.principleOfMonth 0 (by omega : t < _)]
    rw [getPropertyTaxByMonth, getD_some_of_lt s.propertyTaxOfMonth 0 (by omega : t < _)]
    simp only [Option.some_bind, Option.map_some']
    rw [Finset.sum_range_succ, Finset.sum_range_succ]
    unfold housingMonthTotal
    norm_num

/-- Helper: the property tax series has exactly `termInMonth` entries. -/
theorem initPropertyTax_length (termInMonth : ℕ) (total propertyTaxRate inflationRate : ℚ) :
    (initPropertyTax termInMonth total propertyTaxRate inflationRate).length = termInMonth :=
  propertyTaxRows_length termInMonth total propertyTaxRate _

/-- Helper: under the default constants the annuity division succeeds and
returns `defaultPayment`. -/
theorem defaultPayment_spec :
    getMonthlyPaymentToBank TOTAL_HOUSE_PRICE DOWNPAYMENT_PCT MORGAGE_TERMS
      ANNUAL_INTEREST_RATE = some defaultPayment := by
  have hpay := getMonthlyPaymentToBank_eq_some TOTAL_HOUSE_PRICE DOWNPAYMENT_PCT
    MORGAGE_TERMS ANNUAL_INTEREST_RATE (by norm_num [ANNUAL_INTEREST_RATE])
    (by norm_num [MORGAGE_TERMS])
  rw [hpay]
  unfold defaultPayment
  rw [hpay]
  rfl

/-- Helper: one `init` run appends the three builder outputs to the current
tables. -/
theorem init_eq_some (s : CostTables) :
    init s = some
      { costOfMonth := s.costOfMonth ++
          initCostOfRental LIVING_MONTH INFLATION_RATE INITIAL_MONTHLY_RENT
        principleOfMonth := s.principleOfMonth ++
          (bankRows LIVING_MONTH (TOTAL_HOUSE_PRICE * (1 - DOWNPAYMENT_PCT))
            ANNUAL_INTEREST_RATE defaultPayment).2
        interestOfMonth := s.interestOfMonth ++
          (bankRows LIVING_MONTH (TOTAL_HOUSE_PRICE * (1 - DOWNPAYMENT_PCT))
            ANNUAL_INTEREST_RATE defaultPayment).1
        propertyTaxOfMonth := s.propertyTaxOfMonth ++
          initPropertyTax LIVING_MONTH TOTAL_HOUSE_PRICE ANNUAL_PROPERTY_TAX_RATE
            INFLATION_RATE } := by
  unfold init initCostOfBank
  rw [defaultPayment_spec]
  rfl

/-- Helper: each table grows by exactly `LIVING_MONTH` entries per `init`
run. -/
theorem init_lengths {s s' : CostTables} (h : init s = some s') :
    s'.costOfMonth.length = s.costOfMonth.length + LIVING_MONTH ∧
      s'.interestOfMonth.length = s.interestOfMonth.length + LIVING_MONTH ∧
      s'.principleOfMonth.length = s.principleOfMonth.length + LIVING_MONTH ∧
      s'.propertyTaxOfMonth.length = s.propertyTaxOfMonth.length + LIVING_MONTH := by
  rw [init_eq_some s] at h
  have h' := Option.some.inj h
  subst h'
  have hb := bankRows_length LIVING_MONTH (TOTAL_HOUSE_PRICE * (1 - DOWNPAYMENT_PCT))
    ANNUAL_INTEREST_RATE defaultPayment
  refine ⟨?_, ?_, ?_, ?_⟩ <;>
    simp [List.length_append, initCostOfRental_length, initPropertyTax_length, hb.1, hb.2]

/-- C5 counterexample: on a state whose stored tables are all zero for two
months, the code's housing aggregation differs from the spec-worded variant
that truncates HOA and insurance before adding them, because the code adds
the untruncated values. -/
theorem C5_trunc_counterexample :
    getTotalHousingCost ⟨[], [0, 0], [0, 0], [0, 0]⟩ 2
      ≠ getTotalHousingCostTruncSpec ⟨[], [0, 0], [0, 0], [0, 0]⟩ 2 := by decide

/-- C5 (amended): `getTotalHousingCost` adds the HOA and insurance values
untruncated — each month contributes exactly
`interest + principle + tax + getHOAByMonth month + getInsuranceByMonth month`
with the last two summands the continuous values, and the accumulated totals
are the exact rational sums of these contributions. -/
theorem C5_hoa_insurance_untruncated (s : CostTables) (termInMonth : ℕ)
    (hI : termInMonth ≤ s.interestOfMonth.length)
    (hP : termInMonth ≤ s.principleOfMonth.length)
    (hT : termInMonth ≤ s.propertyTaxOfMonth.length) :
    getTotalHousingCost s termInMonth
      = some (∑ m ∈ Finset.range termInMonth,
            (((s.interestOfMonth.getD m 0 : ℤ) : ℚ) + ((s.principleOfMonth.getD m 0 : ℤ) : ℚ)
              + ((s.propertyTaxOfMonth.getD m 0 : ℤ) : ℚ)
              + getHOAByMonth m + getInsuranceByMonth m),
          ∑ m ∈ Finset.range termInMonth,
            ((((s.interestOfMonth.getD m 0 : ℤ) : ℚ) + ((s.principleOfMonth.getD m 0 : ℤ) : ℚ)
              + ((s.propertyTaxOfMonth.getD m 0 : ℤ) : ℚ)
              + getHOAByMonth m + getInsuranceByMonth m)
              - ((s.principleOfMonth.getD m 0 : ℤ) : ℚ))) :=
  getTotalHousingCost_eq_sum s termInMonth hI hP hT

/-- C5 witness: the amended theorem applied to the two-month all-zero
tables. -/
theorem C5_hoa_insurance_untruncated_witness :
    getTotalHousingCost ⟨[], [0, 0], [0, 0], [0, 0]⟩ 2
      = some (∑ m ∈ Finset.range 2,
            ((((⟨[], [0, 0], [0, 0], [0, 0]⟩ : CostTables).interestOfMonth.getD m 0 : ℤ) : ℚ)
              + (((⟨[], [0, 0], [0, 0], [0, 0]⟩ : CostTables).principleOfMonth.getD m 0 : ℤ) : ℚ)
              + (((⟨[], [0, 0], [0, 0], [0, 0]⟩ : CostTables).propertyTaxOfMonth.getD m 0 : ℤ) : ℚ)
              + getHOAByMonth m + getInsuranceByMonth m),
          ∑ m ∈ Finset.range 2,
            (((((⟨[], [0, 0], [0, 0], [0, 0]⟩ : CostTables).interestOfMonth.getD m 0 : ℤ) : ℚ)
              + (((⟨[], [0, 0], [0, 0], [0, 0]⟩ : CostTables).principleOfMonth.getD m 0 : ℤ) : ℚ)
              + (((⟨[], [0, 0], [0, 0], [0, 0]⟩ : CostTables).propertyTaxOfMonth.getD m 0 : ℤ) : ℚ)
              + getHOAByMonth m + getInsuranceByMonth m)
              - (((⟨[], [0, 0], [0, 0], [0, 0]⟩ : CostTables).principleOfMonth.getD m 0 : ℤ) : ℚ))) :=
  C5_hoa_insurance_untruncated ⟨[], [0, 0], [0, 0], [0, 0]⟩ 2 (by decide) (by decide)
    (by decide)

/-- C6: the three final summary values of `main`: the rental total is the sum
of the stored rental series over the modeled months, the reported cost of
buying is the housing total plus the one-time downpayment
`TOTAL_HOUSE_PRICE * DOWNPAYMENT_PCT`, and the pure housing cost is the
per-month sum of `(interest + principle + tax + hoa + insurance)` minus that
month's `principle` — so it contains neither principle nor the
downpayment. -/
theorem C6_summary_values :
    ∃ (s : CostTables) (rental : ℤ) (totals : ℚ × ℚ),
      init emptyTables = some s ∧
        getTotalRentalCost s LIVING_MONTH = some rental ∧
        rental = ∑ m ∈ Finset.range LIVING_MONTH, s.costOfMonth.getD m 0 ∧
        getTotalHousingCost s LIVING_MONTH = some totals ∧
        totals.1 = ∑ m ∈ Finset.range LIVING_MONTH, housingMonthTotal s m ∧
        totals.2 = ∑ m ∈ Finset.range LIVING_MONTH,
            (housingMonthTotal s m - ((s.principleOfMonth.getD m 0 : ℤ) : ℚ)) ∧
        mainResult
          = some (rental, totals.1 + TOTAL_HOUSE_PRICE * DOWNPAYMENT_PCT, totals.2) := by
  obtain ⟨s, hinit⟩ : ∃ x, init emptyTables = some x := ⟨_, init_eq_some emptyTables⟩
  have hlen := init_lengths hinit
  have hc : s.costOfMonth.length = 60 := by rw [hlen.1]; rfl
  have hi : s.interestOfMonth.length = 60 := by rw [hlen.2.1]; rfl
  have hp : s.principleOfMonth.length = 60 := by rw [hlen.2.2.1]; rfl
  have ht : s.propertyTaxOfMonth.length = 60 := by rw [hlen.2.2.2]; rfl
  have hrent := getTotalRentalCost_eq_sum s LIVING_MONTH
    (by rw [hc]; norm_num [LIVING_MONTH])
  have hhouse := getTotalHousingCost_eq_sum s LIVING_MONTH
    (by rw [hi]; norm_num [LIVING_MONTH]) (by rw [hp]; norm_num [LIVING_MONTH])
    (by rw [ht]; norm_num [LIVING_MONTH])
  refine ⟨s, _, _, hinit, hrent, rfl, hhouse, rfl, rfl, ?_⟩
  unfold mainResult
  rw [hinit]
  simp only [Option.some_bind]
  rw [hrent]
  simp only [Option.some_bind]
  rw [hhouse]
  rfl

/-- C9 counterexample: the builders append to module-level lists that are
never cleared, so running `init` a second time does not reproduce the state
of the first run — the tables double in length. -/
theorem C9_rerun_not_identical : (init emptyTables).bind init ≠ init emptyTables := by
  obtain ⟨s1, h1⟩ : ∃ x, init emptyTables = some x := ⟨_, init_eq_some emptyTables⟩
  obtain ⟨s2, h2⟩ : ∃ x, init s1 = some x := ⟨_, init_eq_some s1⟩
  have l1 := (init_lengths h1).1
  have l2 := (init_lengths h2).1
  rw [h1]
  simp only [Option.some_bind]
  rw [h2]
  intro heq
  have hss := Option.some.inj heq
  rw [hss] at l2
  have h60 : LIVING_MONTH = 60 := rfl
  omega

/-- C9 (amended): a second `init` run with identical inputs appends a second
copy of the same computed values to each table instead of reproducing the
first run's state; the two aggregations read only indices below
`LIVING_MONTH`, so the reported totals of the second run nevertheless equal
those of the first. -/
theorem C9_rerun_appends :
    ∃ s1 s2 : CostTables,
      init emptyTables = some s1 ∧ init s1 = some s2 ∧
        s2.costOfMonth = s1.costOfMonth ++ s1.costOfMonth ∧
        s2.interestOfMonth = s1.interestOfMonth ++ s1.interestOfMonth ∧
        s2.principleOfMonth = s1.principleOfMonth ++ s1.principleOfMonth ∧
        s2.propertyTaxOfMonth = s1.propertyTaxOfMonth ++ s1.propertyTaxOfMonth ∧
        getTotalRentalCost s2 LIVING_MONTH = getTotalRentalCost s1 LIVING_MONTH ∧
        getTotalHousingCost s2 LIVING_MONTH = getTotalHousingCost s1 LIVING_MONTH := by
  obtain ⟨s1, h1⟩ : ∃ x, init emptyTables = some x := ⟨_, init_eq_some emptyTables⟩
  obtain ⟨s2, h2⟩ : ∃ x, init s1 = some x := ⟨_, init_eq_some s1⟩
  have hc1 : s1.costOfMonth.length = 60 := by rw [(init_lengths h1).1]; rfl
  have hi1 : s1.interestOfMonth.length = 60 := by rw [(init_lengths h1).2.1]; rfl
  have hp1 : s1.principleOfMonth.length = 60 := by rw [(init_lengths h1).2.2.1]; rfl
  have ht1 : s1.propertyTaxOfMonth.length = 60 := by rw [(init_lengths h1).2.2.2]; rfl
  have e1 := Option.some.inj (h1.symm.trans (init_eq_some emptyTables))
  have e2 := Option.some.inj (h2.symm.trans (init_eq_some s1))
  have hcc : s2.costOfMonth = s1.costOfMonth ++ s1.costOfMonth := by
    rw [e2, e1]
    simp [emptyTables]
  have hii : s2.interestOfMonth = s1.interestOfMonth ++ s1.interestOfMonth := by
    rw [e2, e1]
    simp [emptyTables]
  have hpp : s2.principleOfMonth = s1.principleOfMonth ++ s1.principleOfMonth := by
    rw [e2, e1]
    simp [emptyTables]
  have htt : s2.propertyTaxOfMonth = s1.propertyTaxOfMonth ++ s1.propertyTaxOfMonth := by
    rw [e2, e1]
    simp [emptyTables]
  have hc2 : (60:ℕ) ≤ s2.costOfMonth.length := by rw [hcc]; simp [hc1]
  have hi2 : (60:ℕ) ≤ s2.interestOfMonth.length := by rw [hii]; simp [hi1]
  have hp2 : (60:ℕ) ≤ s2.principleOfMonth.length := by rw [hpp]; simp [hp1]
  have ht2 : (60:ℕ) ≤ s2.propertyTaxOfMonth.length := by rw [htt]; simp [ht1]
  have h60 : LIVING_MONTH = 60 := rfl
  refine ⟨s1, s2, h1, h2, hcc, hii, hpp, htt, ?_, ?_⟩
  · rw [getTotalRentalCost_eq_sum s2 LIVING_MONTH (by omega),
      getTotalRentalCost_eq_sum s1 LIVING_MONTH (by omega)]
    congr 1
    refine Finset.sum_congr rfl fun m hm => ?_
    have hm60 : m < 60 := by
      have := Finset.mem_range.mp hm
      omega
    rw [hcc]
    exact List.getD_append _ _ _ _ (by omega)
  · rw [getTotalHousingCost_eq_sum s2 LIVING_MONTH (by omega) (by omega) (by omega),
      getTotalHousingCost_eq_sum s1 LIVING_MONTH (by omega) (by omega) (by omega)]
    have hmonth : ∀ m, m < 60 → housingMonthTotal s2 m = housingMonthTotal s1 m := by
      intro m hm60
      unfold housingMonthTotal
      rw [hii, hpp, htt]
      rw [List.getD_append _ _ _ _ (by omega), List.getD_append _ _ _ _ (by omega),
        List.getD_append _ _ _ _ (by omega)]
    have hAB : (∑ m ∈ Finset.range LIVING_MONTH, housingMonthTotal s2 m)
        = ∑ m ∈ Finset.range LIVING_MONTH, housingMonthTotal s1 m := by
      refine Finset.sum_congr rfl fun m hm => ?_
      exact hmonth m (by have := Finset.mem_range.mp hm; omega)
    have hPu : (∑ m ∈ Finset.range LIVING_MONTH,
          (housingMonthTotal s2 m - ((s2.principleOfMonth.getD m 0 : ℤ) : ℚ)))
        = ∑ m ∈ Finset.range LIVING_MONTH,
            (housingMonthTotal s1 m - ((s1.principleOfMonth.getD m 0 : ℤ) : ℚ)) := by
      refine Finset.sum_congr rfl fun m hm => ?_
      have hm60 : m < 60 := by have := Finset.mem_range.mp hm; omega
      rw [hmonth m hm60, hpp, List.getD_append _ _ _ _ (by omega)]
    rw [hAB, hPu]

/-- C10: after initialization every per-month accessor over a stored series
is out-of-range `none` for `month ≥ LIVING_MONTH` (Python raises
`IndexError` there) and returns the stored entry for
`month < LIVING_MONTH`. -/
theorem C10_accessor_bounds :
    ∃ s : CostTables,
      init emptyTables = some s ∧
        (∀ month : ℕ, LIVING_MONTH ≤ month →
          getRentalCostByMonth s month = none ∧
          getInterestCostByMonth s month = none ∧
          getPrincipleCostByMonth s month = none ∧
          getPropertyTaxByMonth s month = none) ∧
        (∀ month : ℕ, month < LIVING_MONTH →
          getRentalCostByMonth s month = some (s.costOfMonth.getD month 0) ∧
          getInterestCostByMonth s month = some (s.interestOfMonth.getD month 0) ∧
          getPrincipleCostByMonth s month = some (s.principleOfMonth.getD month 0) ∧
          getPropertyTaxByMonth s month = some (s.propertyTaxOfMonth.getD month 0)) := by
  obtain ⟨s, hinit⟩ : ∃ x, init emptyTables = some x := ⟨_, init_eq_some emptyTables⟩
  have hc : s.costOfMonth.length = 60 := by rw [(init_lengths hinit).1]; rfl
  have hi : s.interestOfMonth.length = 60 := by rw [(init_lengths hinit).2.1]; rfl
  have hp : s.principleOfMonth.length = 60 := by rw [(init_lengths hinit).2.2.1]; rfl
  have ht : s.propertyTaxOfMonth.length = 60 := by rw [(init_lengths hinit).2.2.2]; rfl
  have h60 : LIVING_MONTH = 60 := rfl
  refine ⟨s, hinit, ?_, ?_⟩
  · intro month hm
    refine ⟨?_, ?_, ?_, ?_⟩
    · exact List.get?_eq_none.mpr (by omega)
    · exact List.get?_eq_none.mpr (by omega)
    · exact List.get?_eq_none.mpr (by omega)
    · exact List.get?_eq_none.mpr (by omega)
  · intro month hm
    exact ⟨getD_some_of_lt _ 0 (by omega), getD_some_of_lt _ 0 (by omega),
      getD_some_of_lt _ 0 (by omega), getD_some_of_lt _ 0 (by omega)⟩
